import Mathlib

/-!
Shallow embedding of the profile-management core of
`lgk-immo-profile-service` (the entity model of `src/models/*.py`, the
persistence gateway of `src/repositories/profile_repository.py`, and the
service layer of `src/services/profile_service.py`), together with proofs
about its behaviour.

Modelling conventions:
  * UUIDs are modelled as `Nat`; fresh ids are drawn from a `nextId`
    counter held in the database state.
  * Timestamps are a logical clock: `DB.now : Nat` is the value that
    `func.now()` / `datetime.utcnow()` produce during the modelled call.
  * A SQLAlchemy table is a `List` of rows; `scalar_one_or_none` on a
    primary-key lookup is `List.find?` (primary keys are unique).
  * Python `Optional` columns and arguments are `Option`.
  * A raised `ProfileServiceError` is `Except.error`; since the exception
    is raised before any write (or the session is left untouched), the
    service operations return the state alongside the result, and the
    error branches return it unchanged.
  * GraphQL enum twins (`ProfileTypeGQL`, ...) are value-identical copies
    of the DB enums, so the enum conversions are identities and a single
    type is used for both.
-/

/-- `models/enums.py` : `ProfileType`. -/
inductive ProfileType where
  | INDIVIDUAL
  | BUSINESS
deriving DecidableEq, Repr

/-- `models/enums.py` : `Gender`. -/
inductive Gender where
  | MALE
  | FEMALE
  | OTHER
  | PREFER_NOT_TO_SAY
deriving DecidableEq, Repr

/-- `models/enums.py` : `DocumentType`. -/
inductive DocumentType where
  | ID_CARD
  | PASSPORT
  | COMPANY_REGISTRATION
  | TAX_CERTIFICATE
  | PROFILE_PHOTO
  | PROOF_OF_ADDRESS
  | OTHER
deriving DecidableEq, Repr

/-- `models/enums.py` : `VerificationStatus`. -/
inductive VerificationStatus where
  | PENDING
  | APPROVED
  | REJECTED
deriving DecidableEq, Repr

/-- `models/profile_base.py` : the `profiles` table. -/
structure Profile where
  id : Nat
  external_user_id : Nat
  profile_type : ProfileType
  phone_number : Option String
  country : Option String
  city : Option String
  address : Option String
  created_at : Nat
  updated_at : Nat
deriving DecidableEq, Repr

/-- `models/individual_profile.py` : the `individual_profiles` table
(primary key shared with `profiles.id`). -/
structure IndividualProfile where
  id : Nat
  first_name : Option String
  last_name : Option String
  date_of_birth : Option Nat
  gender : Option Gender
  national_id_number : Option String
deriving DecidableEq, Repr

/-- `models/business_profile.py` : the `business_profiles` table
(primary key shared with `profiles.id`). -/
structure BusinessProfile where
  id : Nat
  business_name : String
  registration_number : Option String
  tax_id : Option String
  legal_representative_name : Option String
deriving DecidableEq, Repr

/-- `models/profile_document.py` : the `profile_documents` table. -/
structure ProfileDocument where
  id : Nat
  profile_id : Nat
  file_type : DocumentType
  file_name : Option String
  url : String
  verified : Bool
  uploaded_at : Nat
deriving DecidableEq, Repr

/-- `models/profile_verification.py` : the `profile_verifications` table. -/
structure ProfileVerification where
  id : Nat
  profile_id : Nat
  status : VerificationStatus
  reviewed_by : Option String
  reviewed_at : Option Nat
  notes : Option String
  created_at : Nat
deriving DecidableEq, Repr

/-- The relational store: one list per table, a fresh-id counter and the
logical clock. -/
structure DB where
  profiles : List Profile
  individuals : List IndividualProfile
  businesses : List BusinessProfile
  documents : List ProfileDocument
  verifications : List ProfileVerification
  nextId : Nat
  now : Nat
deriving DecidableEq, Repr

/-- Primary keys are unique and all stored ids (and the foreign
`profile_id` references) precede the fresh-id counter.  These are the
storage-engine guarantees (primary-key uniqueness and monotone id
generation) that the gateway relies on. -/
def DB.WF (db : DB) : Prop :=
  (db.profiles.map Profile.id).Nodup ∧
  (db.individuals.map IndividualProfile.id).Nodup ∧
  (db.businesses.map BusinessProfile.id).Nodup ∧
  (db.documents.map ProfileDocument.id).Nodup ∧
  (db.verifications.map ProfileVerification.id).Nodup ∧
  (∀ p ∈ db.profiles, p.id < db.nextId) ∧
  (∀ i ∈ db.individuals, i.id < db.nextId) ∧
  (∀ b ∈ db.businesses, b.id < db.nextId) ∧
  (∀ d ∈ db.documents, d.id < db.nextId ∧ d.profile_id < db.nextId) ∧
  (∀ v ∈ db.verifications, v.id < db.nextId ∧ v.profile_id < db.nextId)

instance (db : DB) : Decidable db.WF := by
  unfold DB.WF
  infer_instance

/-- A `Profile` row with its relations eager-loaded
(`selectinload(Profile.individual_profile)`, `business_profile`,
`documents`, `verifications`). -/
structure ProfileWithDetails where
  profile : Profile
  individual_profile : Option IndividualProfile
  business_profile : Option BusinessProfile
  documents : List ProfileDocument
  verifications : List ProfileVerification
deriving DecidableEq, Repr

/-- Eager-load the relations of one profile row. -/
def loadDetails (db : DB) (p : Profile) : ProfileWithDetails :=
  { profile := p
    individual_profile := db.individuals.find? (fun i => i.id == p.id)
    business_profile := db.businesses.find? (fun b => b.id == p.id)
    documents := db.documents.filter (fun d => d.profile_id == p.id)
    verifications := db.verifications.filter (fun v => v.profile_id == p.id) }

/-- `BaseRepository.update` / the repository update helpers apply a field
only when it is present in the payload and not `None`; a present value
replaces the stored one, an absent (or `None`) value keeps it. -/
def updField {α : Type} (new old : Option α) : Option α :=
  match new with
  | some v => some v
  | none => old

namespace ProfileRepository

/-- `ProfileRepository.get_by_id_with_details`. -/
def get_by_id_with_details (db : DB) (profile_id : Nat) :
    Option ProfileWithDetails :=
  (db.profiles.find? (fun p => p.id == profile_id)).map (loadDetails db)

/-- `ProfileRepository.get_by_external_user_id`. -/
def get_by_external_user_id (db : DB) (external_user_id : Nat) :
    Option ProfileWithDetails :=
  (db.profiles.find? (fun p => p.external_user_id == external_user_id)).map
    (loadDetails db)

/-- The base `Profile` row inserted by the create operations (its id is
the freshly generated one, its timestamps are the commit time). -/
def newBaseRow (db : DB) (external_user_id : Nat) (t : ProfileType)
    (phone_number country city address : Option String) : Profile :=
  { id := db.nextId, external_user_id := external_user_id
    profile_type := t
    phone_number := phone_number, country := country, city := city
    address := address, created_at := db.now, updated_at := db.now }

/-- The `IndividualProfile` row inserted by
`create_individual_profile`, sharing the fresh profile id. -/
def newIndividualRow (db : DB) (first_name last_name : Option String)
    (date_of_birth : Option Nat) (gender : Option Gender)
    (national_id_number : Option String) : IndividualProfile :=
  { id := db.nextId, first_name := first_name, last_name := last_name
    date_of_birth := date_of_birth, gender := gender
    national_id_number := national_id_number }

/-- The `BusinessProfile` row inserted by `create_business_profile`,
sharing the fresh profile id. -/
def newBusinessRow (db : DB) (business_name : String)
    (registration_number tax_id legal_representative_name : Option String) :
    BusinessProfile :=
  { id := db.nextId, business_name := business_name
    registration_number := registration_number, tax_id := tax_id
    legal_representative_name := legal_representative_name }

/-- The initial `PENDING` verification row inserted by both create
operations, referencing the fresh profile id. -/
def newVerificationRow (db : DB) : ProfileVerification :=
  { id := db.nextId + 1, profile_id := db.nextId
    status := VerificationStatus.PENDING
    reviewed_by := none, reviewed_at := none, notes := none
    created_at := db.now }

/-- The store after the single commit of `create_individual_profile`. -/
def insertIndividual (db : DB) (external_user_id : Nat)
    (phone_number country city address : Option String)
    (first_name last_name : Option String) (date_of_birth : Option Nat)
    (gender : Option Gender) (national_id_number : Option String) : DB :=
  { db with
    profiles := db.profiles ++
      [newBaseRow db external_user_id ProfileType.INDIVIDUAL phone_number
        country city address]
    individuals := db.individuals ++
      [newIndividualRow db first_name last_name date_of_birth gender
        national_id_number]
    verifications := db.verifications ++ [newVerificationRow db]
    nextId := db.nextId + 2 }

/-- The store after the single commit of `create_business_profile`. -/
def insertBusiness (db : DB) (external_user_id : Nat)
    (business_name : String)
    (phone_number country city address : Option String)
    (registration_number tax_id legal_representative_name : Option String) :
    DB :=
  { db with
    profiles := db.profiles ++
      [newBaseRow db external_user_id ProfileType.BUSINESS phone_number
        country city address]
    businesses := db.businesses ++
      [newBusinessRow db business_name registration_number tax_id
        legal_representative_name]
    verifications := db.verifications ++ [newVerificationRow db]
    nextId := db.nextId + 2 }

/-- `ProfileRepository.create_individual_profile`: insert the base row,
flush to obtain its id, insert the `IndividualProfile` specialization and
an initial `PENDING` verification, commit, then re-read with details. -/
def create_individual_profile (db : DB) (external_user_id : Nat)
    (phone_number country city address : Option String)
    (first_name last_name : Option String) (date_of_birth : Option Nat)
    (gender : Option Gender) (national_id_number : Option String) :
    DB × Option ProfileWithDetails :=
  (insertIndividual db external_user_id phone_number country city address
    first_name last_name date_of_birth gender national_id_number,
   get_by_id_with_details
     (insertIndividual db external_user_id phone_number country city
       address first_name last_name date_of_birth gender
       national_id_number)
     db.nextId)

/-- `ProfileRepository.create_business_profile`: insert the base row, the
`BusinessProfile` specialization and an initial `PENDING` verification,
commit, then re-read with details. -/
def create_business_profile (db : DB) (external_user_id : Nat)
    (business_name : String) (phone_number country city address : Option String)
    (registration_number tax_id legal_representative_name : Option String) :
    DB × Option ProfileWithDetails :=
  (insertBusiness db external_user_id business_name phone_number country
    city address registration_number tax_id legal_representative_name,
   get_by_id_with_details
     (insertBusiness db external_user_id business_name phone_number
       country city address registration_number tax_id
       legal_representative_name)
     db.nextId)

end ProfileRepository

/-- `gql_schema/profile_inputs.py` : `ProfileFilterInput`. -/
structure ProfileFilter where
  profile_type : Option ProfileType
  country : Option String
  city : Option String
  verification_status : Option VerificationStatus
  search : Option String
deriving DecidableEq, Repr

/-- Character-list prefix test (helper for the `ILIKE` model). -/
def matchHere : List Char → List Char → Bool
  | [], _ => true
  | _ :: _, [] => false
  | a :: as, b :: bs => a == b && matchHere as bs

/-- Character-list substring test (helper for the `ILIKE` model). -/
def substrList (pat : List Char) : List Char → Bool
  | [] => matchHere pat []
  | b :: bs => matchHere pat (b :: bs) || substrList pat bs

/-- SQL `col ILIKE '%pat%'` : case-insensitive substring match; a `NULL`
column never matches. -/
def ilikeContains (col : Option String) (pat : String) : Bool :=
  match col with
  | none => false
  | some s => substrList pat.toLower.data s.toLower.data

/-- The conjunction of `WHERE` clauses that
`ProfileRepository.get_profiles_filtered` attaches to both the select and
the count query.  A filter value that is Python-falsy (`None`, or the
empty string for the text filters) adds no clause, i.e. accepts every
row. -/
def matchesFilters (db : DB) (f : ProfileFilter) (p : Profile) : Bool :=
  (match f.profile_type with
   | none => true
   | some t => p.profile_type == t) &&
  (match f.country with
   | none => true
   | some c => if c == "" then true else ilikeContains p.country c) &&
  (match f.city with
   | none => true
   | some c => if c == "" then true else ilikeContains p.city c) &&
  (match f.verification_status with
   | none => true
   | some s => db.verifications.any
       (fun v => v.profile_id == p.id && v.status == s)) &&
  (match f.search with
   | none => true
   | some s =>
     if s == "" then true
     else ilikeContains p.phone_number s || ilikeContains p.address s)

namespace ProfileRepository

/-- `ProfileRepository.get_profiles_filtered`: apply the filters to both
the select and the count query, order by `created_at` descending,
paginate with `limit`/`offset`, eager-load the page, and return it with
the total count of the filtered set. -/
def get_profiles_filtered (db : DB) (f : ProfileFilter)
    (limit offset : Nat) : List ProfileWithDetails × Nat :=
  (((((db.profiles.filter (matchesFilters db f)).mergeSort
        (fun p q => q.created_at ≤ p.created_at)).drop offset).take
      limit).map (loadDetails db),
   (db.profiles.filter (matchesFilters db f)).length)

/-- The sparse payload of `UpdateIndividualProfileInput` after the
service has dropped `UNSET`/`None` entries: `some v` means the field was
explicitly provided with the non-null value `v`; `none` means it was
absent (or null, which `update_individual_profile` skips identically). -/
structure IndividualUpdate where
  phone_number : Option String
  country : Option String
  city : Option String
  address : Option String
  first_name : Option String
  last_name : Option String
  date_of_birth : Option Nat
  gender : Option Gender
  national_id_number : Option String
deriving DecidableEq, Repr

/-- The sparse payload of `UpdateBusinessProfileInput`, with the same
presence convention as `IndividualUpdate`. -/
structure BusinessUpdate where
  phone_number : Option String
  country : Option String
  city : Option String
  address : Option String
  business_name : Option String
  registration_number : Option String
  tax_id : Option String
  legal_representative_name : Option String
deriving DecidableEq, Repr

/-- The base-field loop of `update_individual_profile`
(`for field in ["phone_number", "country", "city", "address"]`). -/
def applyBaseFieldsInd (u : IndividualUpdate) (p : Profile) : Profile :=
  { p with
    phone_number := updField u.phone_number p.phone_number
    country := updField u.country p.country
    city := updField u.city p.city
    address := updField u.address p.address }

/-- The specialization-field loop of `update_individual_profile`. -/
def applyIndividualFields (u : IndividualUpdate) (i : IndividualProfile) :
    IndividualProfile :=
  { i with
    first_name := updField u.first_name i.first_name
    last_name := updField u.last_name i.last_name
    date_of_birth := updField u.date_of_birth i.date_of_birth
    gender := updField u.gender i.gender
    national_id_number := updField u.national_id_number i.national_id_number }

/-- The base-field loop of `update_business_profile`. -/
def applyBaseFieldsBus (u : BusinessUpdate) (p : Profile) : Profile :=
  { p with
    phone_number := updField u.phone_number p.phone_number
    country := updField u.country p.country
    city := updField u.city p.city
    address := updField u.address p.address }

/-- The specialization-field loop of `update_business_profile`
(`business_name` is a non-null column, so an explicitly provided value
replaces it outright). -/
def applyBusinessFields (u : BusinessUpdate) (b : BusinessProfile) :
    BusinessProfile :=
  { b with
    business_name := (u.business_name).getD b.business_name
    registration_number := updField u.registration_number b.registration_number
    tax_id := updField u.tax_id b.tax_id
    legal_representative_name :=
      updField u.legal_representative_name b.legal_representative_name }

/-- The committed store of `update_individual_profile` once the kind
check has passed: the provided non-null base fields are applied to the
base row; the provided non-null specialization fields are applied to the
specialization row only when that row was loaded (`io` is the loaded
`individual_profile` relation). -/
def applyIndividualUpdate (db : DB) (profile_id : Nat)
    (u : IndividualUpdate) (io : Option IndividualProfile) : DB :=
  match io with
  | none =>
    { db with
      profiles := db.profiles.map
        (fun p => if p.id == profile_id then applyBaseFieldsInd u p
                  else p) }
  | some _ =>
    { db with
      profiles := db.profiles.map
        (fun p => if p.id == profile_id then applyBaseFieldsInd u p
                  else p)
      individuals := db.individuals.map
        (fun i => if i.id == profile_id then applyIndividualFields u i
                  else i) }

/-- The committed store of `update_business_profile` once the kind check
has passed (`bo` is the loaded `business_profile` relation). -/
def applyBusinessUpdate (db : DB) (profile_id : Nat)
    (u : BusinessUpdate) (bo : Option BusinessProfile) : DB :=
  match bo with
  | none =>
    { db with
      profiles := db.profiles.map
        (fun p => if p.id == profile_id then applyBaseFieldsBus u p
                  else p) }
  | some _ =>
    { db with
      profiles := db.profiles.map
        (fun p => if p.id == profile_id then applyBaseFieldsBus u p
                  else p)
      businesses := db.businesses.map
        (fun b => if b.id == profile_id then applyBusinessFields u b
                  else b) }

/-- `ProfileRepository.update_individual_profile`: `None` if the profile
is absent or not of kind `INDIVIDUAL`; otherwise apply the provided
non-null base fields to the base row and, when the specialization row is
loaded, the provided non-null specialization fields to it, commit, and
re-read with details. -/
def update_individual_profile (db : DB) (profile_id : Nat)
    (u : IndividualUpdate) : DB × Option ProfileWithDetails :=
  match get_by_id_with_details db profile_id with
  | none => (db, none)
  | some pd =>
    if pd.profile.profile_type ≠ ProfileType.INDIVIDUAL then (db, none)
    else
      (applyIndividualUpdate db profile_id u pd.individual_profile,
       get_by_id_with_details
         (applyIndividualUpdate db profile_id u pd.individual_profile)
         profile_id)

/-- `ProfileRepository.update_business_profile`: `None` if the profile is
absent or not of kind `BUSINESS`; otherwise as for the individual case,
over the business field set. -/
def update_business_profile (db : DB) (profile_id : Nat)
    (u : BusinessUpdate) : DB × Option ProfileWithDetails :=
  match get_by_id_with_details db profile_id with
  | none => (db, none)
  | some pd =>
    if pd.profile.profile_type ≠ ProfileType.BUSINESS then (db, none)
    else
      (applyBusinessUpdate db profile_id u pd.business_profile,
       get_by_id_with_details
         (applyBusinessUpdate db profile_id u pd.business_profile)
         profile_id)

/-- The store after one profile row is removed with the cascade declared
on the `Profile` relationships (`cascade="all, delete-orphan"` towards
the specializations, the documents and the verifications): every owned
child row goes in the same commit. -/
def deleteCascade (db : DB) (profile_id : Nat) : DB :=
  { db with
    profiles := db.profiles.filter (fun p => !(p.id == profile_id))
    individuals := db.individuals.filter (fun i => !(i.id == profile_id))
    businesses := db.businesses.filter (fun b => !(b.id == profile_id))
    documents := db.documents.filter (fun d => !(d.profile_id == profile_id))
    verifications :=
      db.verifications.filter (fun v => !(v.profile_id == profile_id)) }

/-- `BaseRepository.delete` specialised to `Profile`: not-found returns
`False` and leaves the store untouched; otherwise the row and its cascade
are removed and `True` is returned. -/
def delete (db : DB) (profile_id : Nat) : DB × Bool :=
  match db.profiles.find? (fun p => p.id == profile_id) with
  | none => (db, false)
  | some _ => (deleteCascade db profile_id, true)

end ProfileRepository

namespace DocumentRepository

/-- `BaseRepository.get_by_id` specialised to `ProfileDocument`. -/
def get_by_id (db : DB) (document_id : Nat) : Option ProfileDocument :=
  db.documents.find? (fun d => d.id == document_id)

end DocumentRepository

namespace VerificationRepository

/-- `BaseRepository.get_by_id` specialised to `ProfileVerification`. -/
def get_by_id (db : DB) (verification_id : Nat) : Option ProfileVerification :=
  db.verifications.find? (fun v => v.id == verification_id)

/-- `VerificationRepository.update_verification`: `None` when the record
is absent; otherwise set `status`, overwrite `reviewed_by` with the given
argument, stamp `reviewed_at` with `datetime.utcnow()`, and replace
`notes` only when a non-null value is provided. -/
def update_verification (db : DB) (verification_id : Nat)
    (status : VerificationStatus) (reviewed_by : Option String)
    (notes : Option String) : DB × Option ProfileVerification :=
  match db.verifications.find? (fun v => v.id == verification_id) with
  | none => (db, none)
  | some v =>
    let v2 : ProfileVerification :=
      { v with
        status := status
        reviewed_by := reviewed_by
        reviewed_at := some db.now
        notes := updField notes v.notes }
    ({ db with
       verifications := db.verifications.map
         (fun w => if w.id == verification_id then v2 else w) },
     some v2)

end VerificationRepository

/-- The base fields shared by both GraphQL profile variants
(`gql_schema/profile_types.py`), with the nested converted documents and
verifications.  The per-item document/verification conversions of
`profile_service.py` are field-wise identities in this model, so the row
types are reused. -/
structure ProfileGqlBase where
  id : Nat
  external_user_id : Nat
  profile_type : ProfileType
  phone_number : Option String
  country : Option String
  city : Option String
  address : Option String
  created_at : Nat
  updated_at : Nat
  documents : List ProfileDocument
  verifications : List ProfileVerification
deriving DecidableEq, Repr

/-- `gql_schema/profile_types.py` : `ProfileUnion`
(`IndividualProfileType` | `BusinessProfileType`). -/
inductive ProfileUnion where
  | individual (base : ProfileGqlBase) (first_name last_name : Option String)
      (date_of_birth : Option Nat) (gender : Option Gender)
      (national_id_number : Option String)
  | business (base : ProfileGqlBase) (business_name : String)
      (registration_number tax_id legal_representative_name : Option String)
deriving DecidableEq, Repr

namespace ProfileService

/-- The `base_data` dictionary of `ProfileService._convert_profile_to_gql`. -/
def gqlBase (pd : ProfileWithDetails) : ProfileGqlBase :=
  { id := pd.profile.id
    external_user_id := pd.profile.external_user_id
    profile_type := pd.profile.profile_type
    phone_number := pd.profile.phone_number
    country := pd.profile.country
    city := pd.profile.city
    address := pd.profile.address
    created_at := pd.profile.created_at
    updated_at := pd.profile.updated_at
    documents := pd.documents
    verifications := pd.verifications }

/-- `ProfileService._convert_profile_to_gql`: build the variant matching
the kind tag from the loaded specialization; raise `ProfileServiceError`
when the declared kind has no matching specialization loaded. -/
def convert_profile_to_gql (pd : ProfileWithDetails) :
    Except String ProfileUnion :=
  match pd.profile.profile_type, pd.individual_profile with
  | ProfileType.INDIVIDUAL, some ind =>
    Except.ok (ProfileUnion.individual (gqlBase pd) ind.first_name
      ind.last_name ind.date_of_birth ind.gender ind.national_id_number)
  | _, _ =>
    match pd.profile.profile_type, pd.business_profile with
    | ProfileType.BUSINESS, some bus =>
      Except.ok (ProfileUnion.business (gqlBase pd) bus.business_name
        bus.registration_number bus.tax_id bus.legal_representative_name)
    | _, _ =>
      Except.error "Invalid profile type or missing sub-profile for profile"

/-- Item-by-item conversion of a fetched page, as the list comprehension
of `ProfileService.get_profiles`; the first failing item aborts the
request. -/
def convertList : List ProfileWithDetails → Except String (List ProfileUnion)
  | [] => Except.ok []
  | pd :: rest =>
    match convert_profile_to_gql pd with
    | Except.error e => Except.error e
    | Except.ok u =>
      match convertList rest with
      | Except.error e => Except.error e
      | Except.ok us => Except.ok (u :: us)

/-- `ProfileService.get_profile_by_external_user_id`: `None` when absent,
otherwise the converted read model (conversion may raise). -/
def get_profile_by_external_user_id (db : DB) (external_user_id : Nat) :
    Except String (Option ProfileUnion) :=
  match ProfileRepository.get_by_external_user_id db external_user_id with
  | none => Except.ok none
  | some pd =>
    match convert_profile_to_gql pd with
    | Except.error e => Except.error e
    | Except.ok u => Except.ok (some u)

/-- `ProfileService.get_profiles`: fetch the filtered page and total,
convert the page, and compute `has_next_page = (offset + limit) <
total_count`. -/
def get_profiles (db : DB) (f : ProfileFilter) (limit offset : Nat) :
    Except String (List ProfileUnion × Nat × Bool) :=
  match convertList (ProfileRepository.get_profiles_filtered db f limit offset).1 with
  | Except.error e => Except.error e
  | Except.ok gql =>
    Except.ok (gql,
      (ProfileRepository.get_profiles_filtered db f limit offset).2,
      decide (offset + limit <
        (ProfileRepository.get_profiles_filtered db f limit offset).2))

/-- `ProfileService.create_individual_profile`: raise if a profile
already exists for the external identity, otherwise delegate the atomic
creation to the gateway and convert the re-read result. -/
def create_individual_profile (db : DB) (external_user_id : Nat)
    (phone_number country city address : Option String)
    (first_name last_name : Option String) (date_of_birth : Option Nat)
    (gender : Option Gender) (national_id_number : Option String) :
    DB × Except String ProfileUnion :=
  match ProfileRepository.get_by_external_user_id db external_user_id with
  | some _ =>
    (db, Except.error "A profile already exists for this external user")
  | none =>
    match (ProfileRepository.create_individual_profile db
      external_user_id phone_number country city address first_name
      last_name date_of_birth gender national_id_number).2 with
    | none =>
      ((ProfileRepository.create_individual_profile db external_user_id
          phone_number country city address first_name last_name
          date_of_birth gender national_id_number).1,
       Except.error "profile vanished after creation")
    | some pd =>
      ((ProfileRepository.create_individual_profile db external_user_id
          phone_number country city address first_name last_name
          date_of_birth gender national_id_number).1,
       convert_profile_to_gql pd)

/-- `ProfileService.create_business_profile`: raise if a profile already
exists for the external identity, raise if the business name is
Python-falsy (empty), otherwise delegate to the gateway and convert. -/
def create_business_profile (db : DB) (external_user_id : Nat)
    (business_name : String) (phone_number country city address : Option String)
    (registration_number tax_id legal_representative_name : Option String) :
    DB × Except String ProfileUnion :=
  match ProfileRepository.get_by_external_user_id db external_user_id with
  | some _ =>
    (db, Except.error "A profile already exists for this external user")
  | none =>
    if business_name = "" then
      (db, Except.error "Business name is required for business profiles")
    else
      match (ProfileRepository.create_business_profile db external_user_id
        business_name phone_number country city address registration_number
        tax_id legal_representative_name).2 with
      | none =>
        ((ProfileRepository.create_business_profile db external_user_id
            business_name phone_number country city address
            registration_number tax_id legal_representative_name).1,
         Except.error "profile vanished after creation")
      | some pd =>
        ((ProfileRepository.create_business_profile db external_user_id
            business_name phone_number country city address
            registration_number tax_id legal_representative_name).1,
         convert_profile_to_gql pd)

/-- `ProfileService.delete_profile`: delegate to the gateway delete. -/
def delete_profile (db : DB) (profile_id : Nat) : DB × Bool :=
  ProfileRepository.delete db profile_id

end ProfileService

/-- Profiles stored for a given external identity. -/
def countByExternal (db : DB) (ext : Nat) : Nat :=
  (db.profiles.filter (fun p => p.external_user_id == ext)).length

/-!  General lemmas about keyed row lists. -/

/-- Updating a list of keyed rows in place with a key-preserving function
commutes with the primary-key lookup. -/
theorem find_map_update {α : Type} (key : α → Nat) (f : α → α)
    (hf : ∀ a, key (f a) = key a) (k : Nat) (l : List α) :
    (l.map (fun a => if key a == k then f a else a)).find?
        (fun a => key a == k)
      = (l.find? (fun a => key a == k)).map f := by
  induction l with
  | nil => simp
  | cons a as ih =>
    simp only [List.map_cons]
    by_cases h : (key a == k) = true
    · have hfa : (key (f a) == k) = true := by rw [hf]; exact h
      have e1 : List.find? (fun x => key x == k)
          (f a :: List.map (fun x => if (key x == k) = true then f x else x) as)
            = some (f a) := List.find?_cons_of_pos _ hfa
      have e2 : List.find? (fun x => key x == k) (a :: as) = some a :=
        List.find?_cons_of_pos _ h
      rw [if_pos h, e1, e2]
      rfl
    · have e1 : List.find? (fun x => key x == k)
          (a :: List.map (fun x => if (key x == k) = true then f x else x) as)
            = List.find? (fun x => key x == k)
                (List.map (fun x => if (key x == k) = true then f x else x) as) :=
        List.find?_cons_of_neg _ h
      have e2 : List.find? (fun x => key x == k) (a :: as)
          = List.find? (fun x => key x == k) as :=
        List.find?_cons_of_neg _ h
      rw [if_neg h, e1, e2, ih]

/-- A row whose key is untouched by an in-place keyed update survives it
unchanged. -/
theorem mem_map_update {α : Type} (key : α → Nat) (f : α → α) (k : Nat)
    (l : List α) (q : α) (hq : q ∈ l) (hk : key q ≠ k) :
    q ∈ l.map (fun a => if key a == k then f a else a) := by
  have hb : (key q == k) = false := by simp [hk]
  have := List.mem_map_of_mem (fun a => if key a == k then f a else a) hq
  simpa [hb] using this

/-- A keyed lookup over a filtered table fails when the filter removed
every row with that key. -/
theorem find_filter_none {α : Type} (key : α → Nat) (pred : α → Bool)
    (k : Nat) (l : List α) (h : ∀ a ∈ l, key a = k → pred a = false) :
    (l.filter pred).find? (fun a => key a == k) = none := by
  rw [List.find?_eq_none]
  intro a ha
  have hal := List.mem_of_mem_filter ha
  have hap := List.of_mem_filter ha
  simp only [beq_iff_eq]
  intro hk
  have := h a hal hk
  rw [this] at hap
  exact Bool.false_ne_true hap

/-- A positive count for an external identity yields a stored profile
with that identity. -/
theorem find_isSome_of_count_pos (db : DB) (ext : Nat)
    (h : 0 < countByExternal db ext) :
    (db.profiles.find? (fun p => p.external_user_id == ext)).isSome := by
  rw [List.find?_isSome]
  unfold countByExternal at h
  rw [List.length_pos] at h
  obtain ⟨p, hp⟩ := List.exists_mem_of_ne_nil _ h
  rw [List.mem_filter] at hp
  exact ⟨p, hp.1, hp.2⟩


/-- Replacing every row carrying a key by a fixed row with that same key
commutes with the primary-key lookup. -/
theorem find_replace {α : Type} (key : α → Nat) (c : α) (k : Nat)
    (hc : key c = k) (l : List α) :
    (l.map (fun a => if key a == k then c else a)).find?
        (fun a => key a == k)
      = (l.find? (fun a => key a == k)).map (fun _ => c) := by
  induction l with
  | nil => simp
  | cons a as ih =>
    simp only [List.map_cons]
    by_cases h : (key a == k) = true
    · have hcb : (key c == k) = true := by simp [hc]
      have e1 : List.find? (fun x => key x == k)
          (c :: List.map (fun x => if (key x == k) = true then c else x) as)
            = some c := List.find?_cons_of_pos _ hcb
      have e2 : List.find? (fun x => key x == k) (a :: as) = some a :=
        List.find?_cons_of_pos _ h
      rw [if_pos h, e1, e2]
      rfl
    · have e1 : List.find? (fun x => key x == k)
          (a :: List.map (fun x => if (key x == k) = true then c else x) as)
            = List.find? (fun x => key x == k)
                (List.map (fun x => if (key x == k) = true then c else x) as) :=
        List.find?_cons_of_neg _ h
      have e2 : List.find? (fun x => key x == k) (a :: as)
          = List.find? (fun x => key x == k) as :=
        List.find?_cons_of_neg _ h
      rw [if_neg h, e1, e2, ih]

/-- C5: for every list-profiles query that returns, `hasNextPage` equals
`(offset + limit) < totalCount` exactly; in particular with
`totalCount = 20`, `limit = 20`, `offset = 0` it is `false`, and with
`totalCount = 21` and the same `limit`/`offset` it is `true`. -/
theorem C5_has_next_page (db : DB) (f : ProfileFilter) (limit offset : Nat)
    (page : List ProfileUnion) (total : Nat) (hnp : Bool)
    (h : ProfileService.get_profiles db f limit offset
          = Except.ok (page, total, hnp)) :
    hnp = decide (offset + limit < total) ∧
    (total = 20 → limit = 20 → offset = 0 → hnp = false) ∧
    (total = 21 → limit = 20 → offset = 0 → hnp = true) := by
  unfold ProfileService.get_profiles at h
  cases hc : ProfileService.convertList
      (ProfileRepository.get_profiles_filtered db f limit offset).1 with
  | error e => rw [hc] at h; exact absurd h (by simp)
  | ok gql =>
    rw [hc] at h
    simp only [Except.ok.injEq, Prod.mk.injEq] at h
    obtain ⟨hg, ht, hh⟩ := h
    refine ⟨by rw [← hh, ht], ?_, ?_⟩
    · intro h20 hl ho
      subst h20; subst hl; subst ho
      rw [← hh, ht]
      decide
    · intro h21 hl ho
      subst h21; subst hl; subst ho
      rw [← hh, ht]
      decide

/-- The empty store, used to instantiate hypotheses at a concrete
state. -/
def dbEmpty : DB :=
  { profiles := [], individuals := [], businesses := [], documents := []
    verifications := [], nextId := 0, now := 0 }

/-- The filter input with every field left unset. -/
def filterNone : ProfileFilter :=
  { profile_type := none, country := none, city := none
    verification_status := none, search := none }

/-- Concrete instantiation of `C5_has_next_page` at the empty store. -/
theorem C5_has_next_page_witness :
    false = decide ((0 : Nat) + 20 < 0) ∧
    ((0 : Nat) = 20 → (20 : Nat) = 20 → (0 : Nat) = 0 → false = false) ∧
    ((0 : Nat) = 21 → (20 : Nat) = 20 → (0 : Nat) = 0 → false = true) := by
  have h : ProfileService.get_profiles dbEmpty filterNone 20 0
      = Except.ok ([], 0, false) := by
    simp [ProfileService.get_profiles, ProfileRepository.get_profiles_filtered,
      dbEmpty, ProfileService.convertList]
  exact C5_has_next_page dbEmpty filterNone 20 0 [] 0 false h

/-- C8: every creation attempt of a business profile whose business name
is Python-falsy (the empty string; the GraphQL input declares the field
as a required string, so a truly absent name is rejected before the
service runs) fails with a domain error and persists no row: the store
is returned unchanged. -/
theorem C8_empty_business_name (db : DB) (ext : Nat)
    (phone country city address regnum taxid rep : Option String) :
    (ProfileService.create_business_profile db ext "" phone country city
        address regnum taxid rep).1 = db ∧
    ∃ msg, (ProfileService.create_business_profile db ext "" phone country
        city address regnum taxid rep).2 = Except.error msg := by
  unfold ProfileService.create_business_profile
  cases h : ProfileRepository.get_by_external_user_id db ext with
  | some pd => simp
  | none => simp

/-- A pending verification record (id 1) that has never been reviewed. -/
def c2row : ProfileVerification :=
  { id := 1, profile_id := 0, status := VerificationStatus.PENDING
    reviewed_by := none, reviewed_at := none, notes := none
    created_at := 0 }

/-- A store holding only `c2row`, with the clock at 5. -/
def c2db : DB :=
  { profiles := [], individuals := [], businesses := [], documents := []
    verifications := [c2row], nextId := 2, now := 5 }

/-- C2 (counterexample): the gateway `update_verification` stamps the
review time even when no reviewer is given.  On a store holding one
verification record with `reviewed_at = None`, calling the gateway with
`reviewed_by` absent still sets `reviewed_at` to "now" (the clock value
5), contradicting "stamps the review time if and only if a reviewer is
given". -/
theorem C2_counterexample :
    ((VerificationRepository.update_verification c2db 1
        VerificationStatus.APPROVED none none).2).map
        ProfileVerification.reviewed_at = some (some 5) ∧
    c2db.verifications.map ProfileVerification.reviewed_at = [none] := by
  constructor <;> rfl

/-- C2 (amended): for every existing verification record, the gateway
`update_verification` sets the status, unconditionally overwrites
`reviewed_by` with the supplied value (null when absent), unconditionally
stamps `reviewed_at` to "now", and replaces `notes` only when notes is
explicitly provided, leaving prior notes untouched when it is absent or
null; on a missing record it returns the not-found sentinel and changes
nothing. -/
theorem C2_update_verification (db : DB) (vid : Nat)
    (status : VerificationStatus) (rb notes : Option String) :
    (db.verifications.find? (fun w => w.id == vid) = none →
      VerificationRepository.update_verification db vid status rb notes
        = (db, none)) ∧
    (∀ v, db.verifications.find? (fun w => w.id == vid) = some v →
      ∃ v2,
        (VerificationRepository.update_verification db vid status rb
            notes).2 = some v2 ∧
        VerificationRepository.get_by_id
          (VerificationRepository.update_verification db vid status rb
            notes).1 vid = some v2 ∧
        v2.status = status ∧ v2.reviewed_by = rb ∧
        v2.reviewed_at = some db.now ∧ v2.notes = updField notes v.notes ∧
        v2.id = v.id ∧ v2.profile_id = v.profile_id ∧
        v2.created_at = v.created_at) := by
  constructor
  · intro h
    unfold VerificationRepository.update_verification
    rw [h]
  · intro v h
    have hid : v.id = vid := by simpa using List.find?_some h
    unfold VerificationRepository.update_verification
      VerificationRepository.get_by_id
    rw [h]
    refine ⟨_, rfl, ?_, rfl, rfl, rfl, rfl, rfl, rfl, rfl⟩
    have hr := find_replace ProfileVerification.id
      ({ v with
          status := status
          reviewed_by := rb
          reviewed_at := some db.now
          notes := updField notes v.notes })
      vid hid db.verifications
    rw [h] at hr
    simpa using hr

/-- Concrete instantiation of `C2_update_verification` on the
single-record store. -/
theorem C2_update_verification_witness :
    ∃ v2,
      (VerificationRepository.update_verification c2db 1
          VerificationStatus.APPROVED (some "alice") none).2 = some v2 ∧
      VerificationRepository.get_by_id
        (VerificationRepository.update_verification c2db 1
          VerificationStatus.APPROVED (some "alice") none).1 1 = some v2 ∧
      v2.status = VerificationStatus.APPROVED ∧
      v2.reviewed_by = some "alice" ∧
      v2.reviewed_at = some c2db.now ∧ v2.notes = updField none c2row.notes ∧
      v2.id = c2row.id ∧ v2.profile_id = c2row.profile_id ∧
      v2.created_at = c2row.created_at :=
  (C2_update_verification c2db 1 VerificationStatus.APPROVED (some "alice")
    none).2 c2row rfl

/-- C10: for every existing verification record, invoking the gateway
`update_verification` with `reviewed_by` absent overwrites the stored
`reviewed_by` with null, erasing any previously recorded reviewer, while
`notes` is preserved when absent. -/
theorem C10_reviewer_erased (db : DB) (vid : Nat)
    (status : VerificationStatus) (notes : Option String)
    (v : ProfileVerification)
    (h : db.verifications.find? (fun w => w.id == vid) = some v) :
    ∃ v2, (VerificationRepository.update_verification db vid status none
        notes).2 = some v2 ∧
      v2.reviewed_by = none ∧ (notes = none → v2.notes = v.notes) := by
  unfold VerificationRepository.update_verification
  rw [h]
  refine ⟨_, rfl, rfl, ?_⟩
  intro hn
  subst hn
  rfl

/-- A verification record (id 3) that has already been reviewed by
"bob". -/
def c10row : ProfileVerification :=
  { id := 3, profile_id := 0, status := VerificationStatus.APPROVED
    reviewed_by := some "bob", reviewed_at := some 1, notes := some "ok"
    created_at := 0 }

/-- A store holding only `c10row`, with the clock at 9. -/
def c10db : DB :=
  { profiles := [], individuals := [], businesses := [], documents := []
    verifications := [c10row], nextId := 4, now := 9 }

/-- Concrete instantiation of `C10_reviewer_erased`: updating the
record reviewed by "bob" without a reviewer nulls the reviewer out. -/
theorem C10_reviewer_erased_witness :
    ∃ v2, (VerificationRepository.update_verification c10db 3
        VerificationStatus.REJECTED none none).2 = some v2 ∧
      v2.reviewed_by = none ∧
      ((none : Option String) = none → v2.notes = c10row.notes) :=
  C10_reviewer_erased c10db 3 VerificationStatus.REJECTED none c10row rfl

/-- C1: for every external identity that already has a profile (its
profile count is exactly one), a second creation attempt — individual or
business — with that same external identity fails with a domain error,
persists nothing (the store is returned unchanged), and the profile count
for that identity remains exactly one. -/
theorem C1_unique_external_identity (db : DB) (ext : Nat)
    (h : countByExternal db ext = 1)
    (phone country city address fn ln : Option String)
    (dob : Option Nat) (gender : Option Gender) (nid : Option String)
    (name : String) (regnum taxid rep : Option String) :
    ((ProfileService.create_individual_profile db ext phone country city
        address fn ln dob gender nid).1 = db ∧
     (∃ msg, (ProfileService.create_individual_profile db ext phone country
        city address fn ln dob gender nid).2 = Except.error msg) ∧
     countByExternal (ProfileService.create_individual_profile db ext phone
        country city address fn ln dob gender nid).1 ext = 1) ∧
    ((ProfileService.create_business_profile db ext name phone country city
        address regnum taxid rep).1 = db ∧
     (∃ msg, (ProfileService.create_business_profile db ext name phone
        country city address regnum taxid rep).2 = Except.error msg) ∧
     countByExternal (ProfileService.create_business_profile db ext name
        phone country city address regnum taxid rep).1 ext = 1) := by
  have hf : (db.profiles.find?
      (fun p => p.external_user_id == ext)).isSome :=
    find_isSome_of_count_pos db ext (by rw [h]; exact Nat.zero_lt_one)
  have hs : (ProfileRepository.get_by_external_user_id db ext).isSome := by
    unfold ProfileRepository.get_by_external_user_id
    simpa using hf
  obtain ⟨pd, hpd⟩ := Option.isSome_iff_exists.mp hs
  constructor
  · unfold ProfileService.create_individual_profile
    rw [hpd]
    exact ⟨rfl, ⟨_, rfl⟩, h⟩
  · unfold ProfileService.create_business_profile
    rw [hpd]
    exact ⟨rfl, ⟨_, rfl⟩, h⟩

/-- A stored individual profile with external identity 7. -/
def c1profile : Profile :=
  { id := 0, external_user_id := 7
    profile_type := ProfileType.INDIVIDUAL
    phone_number := none, country := none, city := none, address := none
    created_at := 0, updated_at := 0 }

/-- The specialization row of `c1profile`. -/
def c1ind : IndividualProfile :=
  { id := 0, first_name := none, last_name := none, date_of_birth := none
    gender := none, national_id_number := none }

/-- A store already holding exactly one profile for external identity 7. -/
def c1db : DB :=
  { profiles := [c1profile], individuals := [c1ind], businesses := []
    documents := [], verifications := [], nextId := 1, now := 0 }

/-- Concrete instantiation of `C1_unique_external_identity` on a store
with one profile for external identity 7. -/
theorem C1_unique_external_identity_witness :
    ((ProfileService.create_individual_profile c1db 7 none none none
        none none none none none none).1 = c1db ∧
     (∃ msg, (ProfileService.create_individual_profile c1db 7 none none
        none none none none none none none).2 = Except.error msg) ∧
     countByExternal (ProfileService.create_individual_profile c1db 7 none
        none none none none none none none none).1 7 = 1) ∧
    ((ProfileService.create_business_profile c1db 7 "Biz" none none none
        none none none none).1 = c1db ∧
     (∃ msg, (ProfileService.create_business_profile c1db 7 "Biz" none
        none none none none none none).2 = Except.error msg) ∧
     countByExternal (ProfileService.create_business_profile c1db 7 "Biz"
        none none none none none none none).1 7 = 1) :=
  C1_unique_external_identity c1db 7 rfl none none none none none none
    none none none "Biz" none none none

/-- C9: read-model assembly raises a domain error when the declared kind
has no matching specialization loaded (an INDIVIDUAL profile without an
IndividualProfile row, or a BUSINESS profile without a BusinessProfile
row) rather than returning a result; when the matching specialization is
present, it returns the variant matching the kind tag. -/
theorem C9_read_model_assembly (pd : ProfileWithDetails) :
    (pd.profile.profile_type = ProfileType.INDIVIDUAL →
      pd.individual_profile = none →
      ProfileService.convert_profile_to_gql pd
        = Except.error
            "Invalid profile type or missing sub-profile for profile") ∧
    (pd.profile.profile_type = ProfileType.BUSINESS →
      pd.business_profile = none →
      ProfileService.convert_profile_to_gql pd
        = Except.error
            "Invalid profile type or missing sub-profile for profile") ∧
    (∀ ind, pd.profile.profile_type = ProfileType.INDIVIDUAL →
      pd.individual_profile = some ind →
      ProfileService.convert_profile_to_gql pd
        = Except.ok (ProfileUnion.individual (ProfileService.gqlBase pd)
            ind.first_name ind.last_name ind.date_of_birth ind.gender
            ind.national_id_number)) ∧
    (∀ bus, pd.profile.profile_type = ProfileType.BUSINESS →
      pd.business_profile = some bus →
      ProfileService.convert_profile_to_gql pd
        = Except.ok (ProfileUnion.business (ProfileService.gqlBase pd)
            bus.business_name bus.registration_number bus.tax_id
            bus.legal_representative_name)) := by
  refine ⟨?_, ?_, ?_, ?_⟩
  · intro ht hi
    cases hb : pd.business_profile <;>
      simp [ProfileService.convert_profile_to_gql, ht, hi, hb]
  · intro ht hb
    cases hi : pd.individual_profile <;>
      simp [ProfileService.convert_profile_to_gql, ht, hb, hi]
  · intro ind ht hi
    simp [ProfileService.convert_profile_to_gql, ht, hi]
  · intro bus ht hb
    cases hi : pd.individual_profile <;>
      simp [ProfileService.convert_profile_to_gql, ht, hb, hi]

/-- An INDIVIDUAL-kind base row for the read-model assembly checks. -/
def c9profileInd : Profile :=
  { id := 0, external_user_id := 1
    profile_type := ProfileType.INDIVIDUAL
    phone_number := none, country := none, city := none, address := none
    created_at := 0, updated_at := 0 }

/-- A BUSINESS-kind base row for the read-model assembly checks. -/
def c9profileBus : Profile :=
  { id := 0, external_user_id := 2
    profile_type := ProfileType.BUSINESS
    phone_number := none, country := none, city := none, address := none
    created_at := 0, updated_at := 0 }

/-- An individual specialization row. -/
def c9ind : IndividualProfile :=
  { id := 0, first_name := some "A", last_name := some "B"
    date_of_birth := none, gender := none, national_id_number := none }

/-- A business specialization row. -/
def c9bus : BusinessProfile :=
  { id := 0, business_name := "Biz", registration_number := none
    tax_id := none, legal_representative_name := none }

/-- An INDIVIDUAL profile loaded without its specialization. -/
def c9pdIndMissing : ProfileWithDetails :=
  { profile := c9profileInd, individual_profile := none
    business_profile := none, documents := [], verifications := [] }

/-- A BUSINESS profile loaded without its specialization. -/
def c9pdBusMissing : ProfileWithDetails :=
  { profile := c9profileBus, individual_profile := none
    business_profile := none, documents := [], verifications := [] }

/-- An INDIVIDUAL profile loaded with its specialization. -/
def c9pdInd : ProfileWithDetails :=
  { profile := c9profileInd, individual_profile := some c9ind
    business_profile := none, documents := [], verifications := [] }

/-- A BUSINESS profile loaded with its specialization. -/
def c9pdBus : ProfileWithDetails :=
  { profile := c9profileBus, individual_profile := none
    business_profile := some c9bus, documents := [], verifications := [] }

/-- Concrete instantiation of `C9_read_model_assembly` on all four
shapes: the two integrity violations error, the two healthy shapes
return the matching variants. -/
theorem C9_read_model_assembly_witness :
    ProfileService.convert_profile_to_gql c9pdIndMissing
      = Except.error
          "Invalid profile type or missing sub-profile for profile" ∧
    ProfileService.convert_profile_to_gql c9pdBusMissing
      = Except.error
          "Invalid profile type or missing sub-profile for profile" ∧
    ProfileService.convert_profile_to_gql c9pdInd
      = Except.ok (ProfileUnion.individual (ProfileService.gqlBase c9pdInd)
          c9ind.first_name c9ind.last_name c9ind.date_of_birth c9ind.gender
          c9ind.national_id_number) ∧
    ProfileService.convert_profile_to_gql c9pdBus
      = Except.ok (ProfileUnion.business (ProfileService.gqlBase c9pdBus)
          c9bus.business_name c9bus.registration_number c9bus.tax_id
          c9bus.legal_representative_name) :=
  ⟨(C9_read_model_assembly c9pdIndMissing).1 rfl rfl,
   (C9_read_model_assembly c9pdBusMissing).2.1 rfl rfl,
   (C9_read_model_assembly c9pdInd).2.2.1 c9ind rfl rfl,
   (C9_read_model_assembly c9pdBus).2.2.2 c9bus rfl rfl⟩

/-- The search filter that sets only the verification-status filter. -/
def statusOnlyFilter (s : VerificationStatus) : ProfileFilter :=
  { profile_type := none, country := none, city := none
    verification_status := some s, search := none }

/-- C4: with a verification-status filter, every profile on the returned
page has at least one verification record with that status (regardless of
which record is latest), the filtered selection contains every profile
with such a record, and the returned total count is computed over that
same predicate, not from the page size. -/
theorem C4_search_by_verification_status (db : DB) (s : VerificationStatus)
    (limit offset : Nat) :
    (∀ pd ∈ (ProfileRepository.get_profiles_filtered db
        (statusOnlyFilter s) limit offset).1,
      ∃ v ∈ db.verifications, v.profile_id = pd.profile.id ∧ v.status = s) ∧
    (ProfileRepository.get_profiles_filtered db (statusOnlyFilter s) limit
        offset).2
      = (db.profiles.filter (fun p => db.verifications.any
          (fun v => v.profile_id == p.id && v.status == s))).length ∧
    (∀ p ∈ db.profiles,
      (∃ v ∈ db.verifications, v.profile_id = p.id ∧ v.status = s) →
      p ∈ db.profiles.filter (matchesFilters db (statusOnlyFilter s))) := by
  refine ⟨?_, ?_, ?_⟩
  · intro pd hpd
    unfold ProfileRepository.get_profiles_filtered at hpd
    simp only [List.mem_map] at hpd
    obtain ⟨p, hp, hload⟩ := hpd
    have hp1 : p ∈ (db.profiles.filter
        (matchesFilters db (statusOnlyFilter s))).mergeSort
          (fun p q => q.created_at ≤ p.created_at) :=
      List.mem_of_mem_drop (List.mem_of_mem_take hp)
    have hp2 : p ∈ db.profiles.filter
        (matchesFilters db (statusOnlyFilter s)) :=
      List.mem_mergeSort.mp hp1
    have hmf : matchesFilters db (statusOnlyFilter s) p = true :=
      List.of_mem_filter hp2
    simp only [matchesFilters, statusOnlyFilter, Bool.true_and,
      Bool.and_true, List.any_eq_true, Bool.and_eq_true, beq_iff_eq]
      at hmf
    obtain ⟨v, hv, hvp, hvs⟩ := hmf
    exact ⟨v, hv, by rw [← hload]; exact ⟨hvp, hvs⟩⟩
  · unfold ProfileRepository.get_profiles_filtered
    show (db.profiles.filter (matchesFilters db (statusOnlyFilter s))).length
        = (db.profiles.filter (fun p => db.verifications.any
            (fun v => v.profile_id == p.id && v.status == s))).length
    refine congrArg List.length (List.filter_congr ?_)
    intro p hp
    simp [matchesFilters, statusOnlyFilter]
  · intro p hp hv
    refine List.mem_filter.mpr ⟨hp, ?_⟩
    obtain ⟨v, hvmem, hvp, hvs⟩ := hv
    simp only [matchesFilters, statusOnlyFilter, Bool.true_and,
      Bool.and_true, List.any_eq_true, Bool.and_eq_true, beq_iff_eq]
    exact ⟨v, hvmem, hvp, hvs⟩

/-- A stored profile (id 0) for the search-filter checks. -/
def c4profile : Profile :=
  { id := 0, external_user_id := 3
    profile_type := ProfileType.INDIVIDUAL
    phone_number := none, country := none, city := none, address := none
    created_at := 0, updated_at := 0 }

/-- An APPROVED verification record for profile 0 (the older record). -/
def c4verifApproved : ProfileVerification :=
  { id := 1, profile_id := 0, status := VerificationStatus.APPROVED
    reviewed_by := none, reviewed_at := none, notes := none
    created_at := 0 }

/-- A PENDING verification record for profile 0 (the latest record). -/
def c4verifPending : ProfileVerification :=
  { id := 2, profile_id := 0, status := VerificationStatus.PENDING
    reviewed_by := none, reviewed_at := none, notes := none
    created_at := 1 }

/-- A store whose only profile has an APPROVED record that is not its
latest record. -/
def c4db : DB :=
  { profiles := [c4profile], individuals := [], businesses := []
    documents := [], verifications := [c4verifApproved, c4verifPending]
    nextId := 3, now := 2 }

/-- Concrete instantiation of `C4_search_by_verification_status` on a
store whose only profile has an APPROVED record older than a PENDING
one. -/
theorem C4_search_by_verification_status_witness :
    (∃ v ∈ c4db.verifications,
      v.profile_id = (loadDetails c4db c4profile).profile.id ∧
      v.status = VerificationStatus.APPROVED) ∧
    (ProfileRepository.get_profiles_filtered c4db
        (statusOnlyFilter VerificationStatus.APPROVED) 20 0).2
      = (c4db.profiles.filter (fun p => c4db.verifications.any
          (fun v => v.profile_id == p.id
            && v.status == VerificationStatus.APPROVED))).length ∧
    c4profile ∈ c4db.profiles.filter
      (matchesFilters c4db (statusOnlyFilter VerificationStatus.APPROVED)) := by
  have h := C4_search_by_verification_status c4db
    VerificationStatus.APPROVED 20 0
  have hmem : loadDetails c4db c4profile ∈
      (ProfileRepository.get_profiles_filtered c4db
        (statusOnlyFilter VerificationStatus.APPROVED) 20 0).1 := by
    simp [ProfileRepository.get_profiles_filtered, matchesFilters,
      statusOnlyFilter, c4db, c4profile, c4verifApproved, c4verifPending]
  have hex : ∃ v ∈ c4db.verifications,
      v.profile_id = c4profile.id ∧ v.status = VerificationStatus.APPROVED :=
    ⟨c4verifApproved, by simp [c4db], by simp [c4verifApproved, c4profile]⟩
  exact ⟨h.1 (loadDetails c4db c4profile) hmem, h.2.1,
    h.2.2 c4profile (by simp [c4db]) hex⟩

/-- A keyed lookup for a fresh key fails on a table whose keys are all
below the fresh-id counter. -/
theorem find_id_none_of_bound {α : Type} (key : α → Nat) (l : List α)
    (n : Nat) (h : ∀ a ∈ l, key a < n) :
    l.find? (fun a => key a == n) = none := by
  rw [List.find?_eq_none]
  intro a ha
  simp only [beq_iff_eq]
  exact Nat.ne_of_lt (h a ha)

/-- Filtering for a fresh key returns nothing on a table whose keys are
all below the fresh-id counter. -/
theorem filter_id_none_of_bound {α : Type} (key : α → Nat) (l : List α)
    (n : Nat) (h : ∀ a ∈ l, key a < n) :
    l.filter (fun a => key a == n) = [] := by
  rw [List.filter_eq_nil_iff]
  intro a ha
  simp only [beq_iff_eq]
  exact Nat.ne_of_lt (h a ha)

/-- C6: on a well-formed store with no profile for the fresh external
identity `ext`, creating an individual profile with
`first_name = "Ana"`, `last_name = "Li"` succeeds, and reading back by
that external identity returns an INDIVIDUAL-variant profile with the
same first and last name and exactly one verification record, whose
status is PENDING. -/
theorem C6_create_read_roundtrip (db : DB) (ext : Nat)
    (phone country city address : Option String) (dob : Option Nat)
    (gender : Option Gender) (nid : Option String)
    (hwf : DB.WF db)
    (hfresh : ProfileRepository.get_by_external_user_id db ext = none) :
    ∃ base : ProfileGqlBase,
      (ProfileService.create_individual_profile db ext phone country city
          address (some "Ana") (some "Li") dob gender nid).2
        = Except.ok (ProfileUnion.individual base (some "Ana") (some "Li")
            dob gender nid) ∧
      ProfileService.get_profile_by_external_user_id
          (ProfileService.create_individual_profile db ext phone country
            city address (some "Ana") (some "Li") dob gender nid).1 ext
        = Except.ok (some (ProfileUnion.individual base (some "Ana")
            (some "Li") dob gender nid)) ∧
      base.profile_type = ProfileType.INDIVIDUAL ∧
      base.verifications.length = 1 ∧
      ∀ v ∈ base.verifications, v.status = VerificationStatus.PENDING := by
  obtain ⟨-, -, -, -, -, hbp, hbi, hbb, hbd, hbv⟩ := hwf
  have hfind : db.profiles.find? (fun p => p.external_user_id == ext)
      = none := by
    unfold ProfileRepository.get_by_external_user_id at hfresh
    exact Option.map_eq_none'.mp hfresh
  -- the freshly inserted rows and the committed store
  have h1 : (ProfileRepository.insertIndividual db ext phone country city
      address (some "Ana") (some "Li") dob gender nid).profiles.find?
        (fun p => p.id == db.nextId)
      = some (ProfileRepository.newBaseRow db ext ProfileType.INDIVIDUAL
          phone country city address) := by
    unfold ProfileRepository.insertIndividual
    rw [List.find?_append,
      find_id_none_of_bound Profile.id db.profiles db.nextId hbp]
    simp [ProfileRepository.newBaseRow]
  have h2 : (ProfileRepository.insertIndividual db ext phone country city
      address (some "Ana") (some "Li") dob gender nid).individuals.find?
        (fun i => i.id == db.nextId)
      = some (ProfileRepository.newIndividualRow db (some "Ana")
          (some "Li") dob gender nid) := by
    unfold ProfileRepository.insertIndividual
    rw [List.find?_append,
      find_id_none_of_bound IndividualProfile.id db.individuals db.nextId
        hbi]
    simp [ProfileRepository.newIndividualRow]
  have h3 : (ProfileRepository.insertIndividual db ext phone country city
      address (some "Ana") (some "Li") dob gender nid).businesses.find?
        (fun b => b.id == db.nextId) = none := by
    unfold ProfileRepository.insertIndividual
    exact find_id_none_of_bound BusinessProfile.id db.businesses db.nextId
      hbb
  have h4 : (ProfileRepository.insertIndividual db ext phone country city
      address (some "Ana") (some "Li") dob gender nid).documents.filter
        (fun d => d.profile_id == db.nextId) = [] := by
    unfold ProfileRepository.insertIndividual
    exact filter_id_none_of_bound ProfileDocument.profile_id db.documents
      db.nextId (fun d hd => (hbd d hd).2)
  have h5 : (ProfileRepository.insertIndividual db ext phone country city
      address (some "Ana") (some "Li") dob gender nid).verifications.filter
        (fun v => v.profile_id == db.nextId)
      = [ProfileRepository.newVerificationRow db] := by
    unfold ProfileRepository.insertIndividual
    rw [List.filter_append,
      filter_id_none_of_bound ProfileVerification.profile_id
        db.verifications db.nextId (fun v hv => (hbv v hv).2)]
    simp [ProfileRepository.newVerificationRow]
  have h6 : (ProfileRepository.insertIndividual db ext phone country city
      address (some "Ana") (some "Li") dob gender nid).profiles.find?
        (fun p => p.external_user_id == ext)
      = some (ProfileRepository.newBaseRow db ext ProfileType.INDIVIDUAL
          phone country city address) := by
    unfold ProfileRepository.insertIndividual
    rw [List.find?_append, hfind]
    simp [ProfileRepository.newBaseRow]
  have hload : loadDetails
      (ProfileRepository.insertIndividual db ext phone country city
        address (some "Ana") (some "Li") dob gender nid)
      (ProfileRepository.newBaseRow db ext ProfileType.INDIVIDUAL phone
        country city address)
      = { profile := ProfileRepository.newBaseRow db ext
            ProfileType.INDIVIDUAL phone country city address
          individual_profile := some (ProfileRepository.newIndividualRow
            db (some "Ana") (some "Li") dob gender nid)
          business_profile := none
          documents := []
          verifications := [ProfileRepository.newVerificationRow db] } := by
    unfold loadDetails
    have hid : (ProfileRepository.newBaseRow db ext ProfileType.INDIVIDUAL
        phone country city address).id = db.nextId := rfl
    rw [hid, h2, h3, h4, h5]
  have hdet : (ProfileRepository.create_individual_profile db ext phone
      country city address (some "Ana") (some "Li") dob gender nid).2
      = some
          { profile := ProfileRepository.newBaseRow db ext
              ProfileType.INDIVIDUAL phone country city address
            individual_profile := some (ProfileRepository.newIndividualRow
              db (some "Ana") (some "Li") dob gender nid)
            business_profile := none
            documents := []
            verifications := [ProfileRepository.newVerificationRow db] } := by
    show ProfileRepository.get_by_id_with_details
        (ProfileRepository.insertIndividual db ext phone country city
          address (some "Ana") (some "Li") dob gender nid) db.nextId = _
    unfold ProfileRepository.get_by_id_with_details
    rw [h1, Option.map_some', hload]
  have hback : ProfileRepository.get_by_external_user_id
      (ProfileRepository.insertIndividual db ext phone country city
        address (some "Ana") (some "Li") dob gender nid) ext
      = some
          { profile := ProfileRepository.newBaseRow db ext
              ProfileType.INDIVIDUAL phone country city address
            individual_profile := some (ProfileRepository.newIndividualRow
              db (some "Ana") (some "Li") dob gender nid)
            business_profile := none
            documents := []
            verifications := [ProfileRepository.newVerificationRow db] } := by
    unfold ProfileRepository.get_by_external_user_id
    rw [h6, Option.map_some', hload]
  have hstate : (ProfileService.create_individual_profile db ext phone
      country city address (some "Ana") (some "Li") dob gender nid).1
      = ProfileRepository.insertIndividual db ext phone country city
          address (some "Ana") (some "Li") dob gender nid := by
    unfold ProfileService.create_individual_profile
    rw [hfresh, hdet]
    rfl
  have hresult : (ProfileService.create_individual_profile db ext phone
      country city address (some "Ana") (some "Li") dob gender nid).2
      = Except.ok (ProfileUnion.individual
          (ProfileService.gqlBase
            { profile := ProfileRepository.newBaseRow db ext
                ProfileType.INDIVIDUAL phone country city address
              individual_profile := some
                (ProfileRepository.newIndividualRow db (some "Ana")
                  (some "Li") dob gender nid)
              business_profile := none
              documents := []
              verifications := [ProfileRepository.newVerificationRow db] })
          (some "Ana") (some "Li") dob gender nid) := by
    unfold ProfileService.create_individual_profile
    rw [hfresh, hdet]
    rfl
  refine ⟨ProfileService.gqlBase
    { profile := ProfileRepository.newBaseRow db ext
        ProfileType.INDIVIDUAL phone country city address
      individual_profile := some (ProfileRepository.newIndividualRow db
        (some "Ana") (some "Li") dob gender nid)
      business_profile := none
      documents := []
      verifications := [ProfileRepository.newVerificationRow db] },
    hresult, ?_, rfl, rfl, ?_⟩
  · rw [hstate]
    unfold ProfileService.get_profile_by_external_user_id
    rw [hback]
    rfl
  · intro v hv
    simp only [ProfileService.gqlBase, List.mem_singleton] at hv
    subst hv
    rfl

/-- Concrete instantiation of `C6_create_read_roundtrip` at the empty
store with external identity 5. -/
theorem C6_create_read_roundtrip_witness :
    ∃ base : ProfileGqlBase,
      (ProfileService.create_individual_profile dbEmpty 5 none none none
          none (some "Ana") (some "Li") none none none).2
        = Except.ok (ProfileUnion.individual base (some "Ana") (some "Li")
            none none none) ∧
      ProfileService.get_profile_by_external_user_id
          (ProfileService.create_individual_profile dbEmpty 5 none none
            none none (some "Ana") (some "Li") none none none).1 5
        = Except.ok (some (ProfileUnion.individual base (some "Ana")
            (some "Li") none none none)) ∧
      base.profile_type = ProfileType.INDIVIDUAL ∧
      base.verifications.length = 1 ∧
      ∀ v ∈ base.verifications, v.status = VerificationStatus.PENDING :=
  C6_create_read_roundtrip dbEmpty 5 none none none none none none none
    (by decide) rfl

/-- A primary-key lookup fails on a table from which every row with that
key has been filtered out. -/
theorem find_filter_out {α : Type} (key : α → Nat) (k : Nat) (l : List α) :
    (l.filter (fun a => !(key a == k))).find? (fun a => key a == k)
      = none := by
  rw [List.find?_eq_none]
  intro a ha
  rw [List.mem_filter] at ha
  simpa using ha.2

/-- C7: deleting an absent profile returns the not-found boolean and
changes nothing; deleting an existing profile (on a store with unique
primary keys) returns `true` and removes the base row, its
specialization rows, and all of its documents and verification records
in one step — subsequent lookups of the profile or of any child id
return not-found — while rows belonging to other profiles survive. -/
theorem C7_cascade_delete (db : DB) (pid : Nat) :
    (db.profiles.find? (fun p => p.id == pid) = none →
      ProfileService.delete_profile db pid = (db, false)) ∧
    (DB.WF db → ∀ p, db.profiles.find? (fun q => q.id == pid) = some p →
      (ProfileService.delete_profile db pid).2 = true ∧
      ProfileRepository.get_by_id_with_details
        (ProfileService.delete_profile db pid).1 pid = none ∧
      (ProfileService.delete_profile db pid).1.individuals.find?
        (fun i => i.id == pid) = none ∧
      (ProfileService.delete_profile db pid).1.businesses.find?
        (fun b => b.id == pid) = none ∧
      (∀ d ∈ db.documents, d.profile_id = pid →
        DocumentRepository.get_by_id
          (ProfileService.delete_profile db pid).1 d.id = none) ∧
      (∀ v ∈ db.verifications, v.profile_id = pid →
        VerificationRepository.get_by_id
          (ProfileService.delete_profile db pid).1 v.id = none) ∧
      (∀ q ∈ db.profiles, q.id ≠ pid →
        q ∈ (ProfileService.delete_profile db pid).1.profiles) ∧
      (∀ d ∈ db.documents, d.profile_id ≠ pid →
        d ∈ (ProfileService.delete_profile db pid).1.documents) ∧
      (∀ v ∈ db.verifications, v.profile_id ≠ pid →
        v ∈ (ProfileService.delete_profile db pid).1.verifications)) := by
  constructor
  · intro h
    unfold ProfileService.delete_profile ProfileRepository.delete
    rw [h]
  · intro hwf p hp
    obtain ⟨-, -, -, hnd, hnv, -, -, -, -, -⟩ := hwf
    have hdel : ProfileService.delete_profile db pid
        = (ProfileRepository.deleteCascade db pid, true) := by
      unfold ProfileService.delete_profile ProfileRepository.delete
      rw [hp]
    rw [hdel]
    refine ⟨rfl, ?_, ?_, ?_, ?_, ?_, ?_, ?_, ?_⟩
    · unfold ProfileRepository.get_by_id_with_details
      show (((db.profiles.filter (fun q => !(q.id == pid))).find?
          (fun q => q.id == pid)).map
            (loadDetails (ProfileRepository.deleteCascade db pid))) = none
      rw [find_filter_out Profile.id pid db.profiles]
      rfl
    · show (db.individuals.filter (fun i => !(i.id == pid))).find?
          (fun i => i.id == pid) = none
      exact find_filter_out IndividualProfile.id pid db.individuals
    · show (db.businesses.filter (fun b => !(b.id == pid))).find?
          (fun b => b.id == pid) = none
      exact find_filter_out BusinessProfile.id pid db.businesses
    · intro d hd hdp
      show (db.documents.filter (fun x => !(x.profile_id == pid))).find?
          (fun x => x.id == d.id) = none
      rw [List.find?_eq_none]
      intro a ha
      rw [List.mem_filter] at ha
      simp only [beq_iff_eq]
      intro hak
      have had : a = d := List.inj_on_of_nodup_map hnd ha.1 hd hak
      rw [had, hdp] at ha
      simp at ha
    · intro v hv hvp
      show (db.verifications.filter
          (fun x => !(x.profile_id == pid))).find?
          (fun x => x.id == v.id) = none
      rw [List.find?_eq_none]
      intro a ha
      rw [List.mem_filter] at ha
      simp only [beq_iff_eq]
      intro hak
      have hav : a = v := List.inj_on_of_nodup_map hnv ha.1 hv hak
      rw [hav, hvp] at ha
      simp at ha
    · intro q hq hqp
      show q ∈ db.profiles.filter (fun x => !(x.id == pid))
      exact List.mem_filter.mpr ⟨hq, by simp [hqp]⟩
    · intro d hd hdp
      show d ∈ db.documents.filter (fun x => !(x.profile_id == pid))
      exact List.mem_filter.mpr ⟨hd, by simp [hdp]⟩
    · intro v hv hvp
      show v ∈ db.verifications.filter (fun x => !(x.profile_id == pid))
      exact List.mem_filter.mpr ⟨hv, by simp [hvp]⟩

/-- A stored profile (id 0) that will be deleted. -/
def c7profile : Profile :=
  { id := 0, external_user_id := 11
    profile_type := ProfileType.INDIVIDUAL
    phone_number := none, country := none, city := none, address := none
    created_at := 0, updated_at := 0 }

/-- A second stored profile (id 3) that must survive the delete. -/
def c7profile2 : Profile :=
  { id := 3, external_user_id := 12
    profile_type := ProfileType.BUSINESS
    phone_number := none, country := none, city := none, address := none
    created_at := 0, updated_at := 0 }

/-- The specialization row of profile 0. -/
def c7ind : IndividualProfile :=
  { id := 0, first_name := none, last_name := none, date_of_birth := none
    gender := none, national_id_number := none }

/-- A document (id 1) owned by profile 0. -/
def c7doc : ProfileDocument :=
  { id := 1, profile_id := 0, file_type := DocumentType.ID_CARD
    file_name := none, url := "u", verified := false, uploaded_at := 0 }

/-- A document (id 4) owned by the surviving profile 3. -/
def c7doc2 : ProfileDocument :=
  { id := 4, profile_id := 3, file_type := DocumentType.PASSPORT
    file_name := none, url := "w", verified := false, uploaded_at := 0 }

/-- A verification record (id 2) owned by profile 0. -/
def c7verif : ProfileVerification :=
  { id := 2, profile_id := 0, status := VerificationStatus.PENDING
    reviewed_by := none, reviewed_at := none, notes := none
    created_at := 0 }

/-- A store with two profiles, where profile 0 owns a specialization, a
document and a verification record. -/
def c7db : DB :=
  { profiles := [c7profile, c7profile2], individuals := [c7ind]
    businesses := [], documents := [c7doc, c7doc2]
    verifications := [c7verif], nextId := 5, now := 1 }

/-- Concrete instantiation of `C7_cascade_delete`: deleting absent id 9
changes nothing; deleting profile 0 removes its specialization, document
and verification while document 4 of profile 3 survives. -/
theorem C7_cascade_delete_witness :
    ProfileService.delete_profile c7db 9 = (c7db, false) ∧
    (ProfileService.delete_profile c7db 0).2 = true ∧
    ProfileRepository.get_by_id_with_details
      (ProfileService.delete_profile c7db 0).1 0 = none ∧
    DocumentRepository.get_by_id
      (ProfileService.delete_profile c7db 0).1 c7doc.id = none ∧
    VerificationRepository.get_by_id
      (ProfileService.delete_profile c7db 0).1 c7verif.id = none ∧
    (ProfileService.delete_profile c7db 0).1.individuals.find?
      (fun i => i.id == 0) = none ∧
    c7doc2 ∈ (ProfileService.delete_profile c7db 0).1.documents := by
  have h := (C7_cascade_delete c7db 0).2 (by decide) c7profile rfl
  exact ⟨(C7_cascade_delete c7db 9).1 rfl, h.1, h.2.1,
    h.2.2.2.2.1 c7doc (by decide) rfl,
    h.2.2.2.2.2.1 c7verif (by decide) rfl,
    h.2.2.1,
    h.2.2.2.2.2.2.2.1 c7doc2 (by decide) (by decide)⟩

/-- C3: a sparse update of a missing profile or one whose kind does not
match the requested update returns the not-found sentinel and changes
nothing; otherwise only the explicitly-provided, non-null fields of the
base row and of the loaded specialization row change, every field absent
from the payload keeps its stored value, rows of other profiles survive
unchanged, and the untouched tables are returned as they were. -/
theorem C3_sparse_update (db : DB) (pid : Nat)
    (u : ProfileRepository.IndividualUpdate)
    (w : ProfileRepository.BusinessUpdate) :
    ((∀ p, db.profiles.find? (fun q => q.id == pid) = some p →
        p.profile_type ≠ ProfileType.INDIVIDUAL) →
      ProfileRepository.update_individual_profile db pid u = (db, none)) ∧
    ((∀ p, db.profiles.find? (fun q => q.id == pid) = some p →
        p.profile_type ≠ ProfileType.BUSINESS) →
      ProfileRepository.update_business_profile db pid w = (db, none)) ∧
    (∀ p, db.profiles.find? (fun q => q.id == pid) = some p →
      p.profile_type = ProfileType.INDIVIDUAL →
      (∃ p2, (ProfileRepository.update_individual_profile db pid
          u).1.profiles.find? (fun q => q.id == pid) = some p2 ∧
        p2.phone_number = updField u.phone_number p.phone_number ∧
        p2.country = updField u.country p.country ∧
        p2.city = updField u.city p.city ∧
        p2.address = updField u.address p.address ∧
        p2.id = p.id ∧ p2.external_user_id = p.external_user_id ∧
        p2.profile_type = p.profile_type ∧ p2.created_at = p.created_at ∧
        p2.updated_at = p.updated_at) ∧
      (∀ i, db.individuals.find? (fun j => j.id == pid) = some i →
        ∃ i2, (ProfileRepository.update_individual_profile db pid
            u).1.individuals.find? (fun j => j.id == pid) = some i2 ∧
          i2.first_name = updField u.first_name i.first_name ∧
          i2.last_name = updField u.last_name i.last_name ∧
          i2.date_of_birth = updField u.date_of_birth i.date_of_birth ∧
          i2.gender = updField u.gender i.gender ∧
          i2.national_id_number
            = updField u.national_id_number i.national_id_number ∧
          i2.id = i.id) ∧
      (∀ q ∈ db.profiles, q.id ≠ pid →
        q ∈ (ProfileRepository.update_individual_profile db
          pid u).1.profiles) ∧
      (∀ j ∈ db.individuals, j.id ≠ pid →
        j ∈ (ProfileRepository.update_individual_profile db
          pid u).1.individuals) ∧
      (ProfileRepository.update_individual_profile db pid u).1.businesses
        = db.businesses ∧
      (ProfileRepository.update_individual_profile db pid u).1.documents
        = db.documents ∧
      (ProfileRepository.update_individual_profile db pid
        u).1.verifications = db.verifications) ∧
    (∀ p, db.profiles.find? (fun q => q.id == pid) = some p →
      p.profile_type = ProfileType.BUSINESS →
      (∃ p2, (ProfileRepository.update_business_profile db pid
          w).1.profiles.find? (fun q => q.id == pid) = some p2 ∧
        p2.phone_number = updField w.phone_number p.phone_number ∧
        p2.country = updField w.country p.country ∧
        p2.city = updField w.city p.city ∧
        p2.address = updField w.address p.address ∧
        p2.id = p.id ∧ p2.external_user_id = p.external_user_id ∧
        p2.profile_type = p.profile_type ∧ p2.created_at = p.created_at ∧
        p2.updated_at = p.updated_at) ∧
      (∀ b, db.businesses.find? (fun j => j.id == pid) = some b →
        ∃ b2, (ProfileRepository.update_business_profile db pid
            w).1.businesses.find? (fun j => j.id == pid) = some b2 ∧
          b2.business_name = (w.business_name).getD b.business_name ∧
          b2.registration_number
            = updField w.registration_number b.registration_number ∧
          b2.tax_id = updField w.tax_id b.tax_id ∧
          b2.legal_representative_name
            = updField w.legal_representative_name
                b.legal_representative_name ∧
          b2.id = b.id) ∧
      (∀ q ∈ db.profiles, q.id ≠ pid →
        q ∈ (ProfileRepository.update_business_profile db
          pid w).1.profiles) ∧
      (∀ j ∈ db.businesses, j.id ≠ pid →
        j ∈ (ProfileRepository.update_business_profile db
          pid w).1.businesses) ∧
      (ProfileRepository.update_business_profile db pid w).1.individuals
        = db.individuals ∧
      (ProfileRepository.update_business_profile db pid w).1.documents
        = db.documents ∧
      (ProfileRepository.update_business_profile db pid
        w).1.verifications = db.verifications) := by
  refine ⟨?_, ?_, ?_, ?_⟩
  · intro h
    unfold ProfileRepository.update_individual_profile
    cases hp : ProfileRepository.get_by_id_with_details db pid with
    | none => rfl
    | some pd =>
      have hpf : db.profiles.find? (fun q => q.id == pid)
          = some pd.profile := by
        unfold ProfileRepository.get_by_id_with_details at hp
        cases hq : db.profiles.find? (fun q => q.id == pid) with
        | none => rw [hq] at hp; cases hp
        | some q => rw [hq] at hp; cases hp; rfl
      exact if_pos (h pd.profile hpf)
  · intro h
    unfold ProfileRepository.update_business_profile
    cases hp : ProfileRepository.get_by_id_with_details db pid with
    | none => rfl
    | some pd =>
      have hpf : db.profiles.find? (fun q => q.id == pid)
          = some pd.profile := by
        unfold ProfileRepository.get_by_id_with_details at hp
        cases hq : db.profiles.find? (fun q => q.id == pid) with
        | none => rw [hq] at hp; cases hp
        | some q => rw [hq] at hp; cases hp; rfl
      exact if_pos (h pd.profile hpf)
  · intro p hp hk
    have hpid : p.id = pid := by simpa using List.find?_some hp
    have hg : ProfileRepository.get_by_id_with_details db pid
        = some (loadDetails db p) := by
      unfold ProfileRepository.get_by_id_with_details
      rw [hp, Option.map_some']
    have hne : ¬(p.profile_type ≠ ProfileType.INDIVIDUAL) :=
      fun hcon => hcon hk
    have heq : ProfileRepository.update_individual_profile db pid u
        = (ProfileRepository.applyIndividualUpdate db pid u
            (db.individuals.find? (fun i => i.id == p.id)),
           ProfileRepository.get_by_id_with_details
             (ProfileRepository.applyIndividualUpdate db pid u
               (db.individuals.find? (fun i => i.id == p.id))) pid) := by
      unfold ProfileRepository.update_individual_profile
      rw [hg]
      exact if_neg hne
    rw [hpid] at heq
    rw [heq]
    have hfp := find_map_update Profile.id
      (ProfileRepository.applyBaseFieldsInd u) (fun a => rfl) pid
      db.profiles
    rw [hp, Option.map_some'] at hfp
    cases hio : db.individuals.find? (fun i => i.id == pid) with
    | none =>
      refine ⟨⟨ProfileRepository.applyBaseFieldsInd u p, hfp, rfl, rfl,
        rfl, rfl, rfl, rfl, rfl, rfl, rfl⟩, ?_, ?_, ?_, rfl, rfl, rfl⟩
      · intro i hi
        exact absurd hi (by simp)
      · intro q hq hqne
        exact mem_map_update Profile.id
          (ProfileRepository.applyBaseFieldsInd u) pid db.profiles q hq
          hqne
      · intro j hj hjne
        exact hj
    | some i0 =>
      have hfi := find_map_update IndividualProfile.id
        (ProfileRepository.applyIndividualFields u) (fun a => rfl) pid
        db.individuals
      rw [hio, Option.map_some'] at hfi
      refine ⟨⟨ProfileRepository.applyBaseFieldsInd u p, hfp, rfl, rfl,
        rfl, rfl, rfl, rfl, rfl, rfl, rfl⟩, ?_, ?_, ?_, rfl, rfl, rfl⟩
      · intro i hi
        injection hi with hii
        subst hii
        exact ⟨ProfileRepository.applyIndividualFields u i0, hfi, rfl,
          rfl, rfl, rfl, rfl, rfl⟩
      · intro q hq hqne
        exact mem_map_update Profile.id
          (ProfileRepository.applyBaseFieldsInd u) pid db.profiles q hq
          hqne
      · intro j hj hjne
        exact mem_map_update IndividualProfile.id
          (ProfileRepository.applyIndividualFields u) pid db.individuals
          j hj hjne
  · intro p hp hk
    have hpid : p.id = pid := by simpa using List.find?_some hp
    have hg : ProfileRepository.get_by_id_with_details db pid
        = some (loadDetails db p) := by
      unfold ProfileRepository.get_by_id_with_details
      rw [hp, Option.map_some']
    have hne : ¬(p.profile_type ≠ ProfileType.BUSINESS) :=
      fun hcon => hcon hk
    have heq : ProfileRepository.update_business_profile db pid w
        = (ProfileRepository.applyBusinessUpdate db pid w
            (db.businesses.find? (fun b => b.id == p.id)),
           ProfileRepository.get_by_id_with_details
             (ProfileRepository.applyBusinessUpdate db pid w
               (db.businesses.find? (fun b => b.id == p.id))) pid) := by
      unfold ProfileRepository.update_business_profile
      rw [hg]
      exact if_neg hne
    rw [hpid] at heq
    rw [heq]
    have hfp := find_map_update Profile.id
      (ProfileRepository.applyBaseFieldsBus w) (fun a => rfl) pid
      db.profiles
    rw [hp, Option.map_some'] at hfp
    cases hbo : db.businesses.find? (fun b => b.id == pid) with
    | none =>
      refine ⟨⟨ProfileRepository.applyBaseFieldsBus w p, hfp, rfl, rfl,
        rfl, rfl, rfl, rfl, rfl, rfl, rfl⟩, ?_, ?_, ?_, rfl, rfl, rfl⟩
      · intro b hb
        exact absurd hb (by simp)
      · intro q hq hqne
        exact mem_map_update Profile.id
          (ProfileRepository.applyBaseFieldsBus w) pid db.profiles q hq
          hqne
      · intro j hj hjne
        exact hj
    | some b0 =>
      have hfb := find_map_update BusinessProfile.id
        (ProfileRepository.applyBusinessFields w) (fun a => rfl) pid
        db.businesses
      rw [hbo, Option.map_some'] at hfb
      refine ⟨⟨ProfileRepository.applyBaseFieldsBus w p, hfp, rfl, rfl,
        rfl, rfl, rfl, rfl, rfl, rfl, rfl⟩, ?_, ?_, ?_, rfl, rfl, rfl⟩
      · intro b hb
        injection hb with hbb
        subst hbb
        exact ⟨ProfileRepository.applyBusinessFields w b0, hfb, rfl, rfl,
          rfl, rfl, rfl⟩
      · intro q hq hqne
        exact mem_map_update Profile.id
          (ProfileRepository.applyBaseFieldsBus w) pid db.profiles q hq
          hqne
      · intro j hj hjne
        exact mem_map_update BusinessProfile.id
          (ProfileRepository.applyBusinessFields w) pid db.businesses
          j hj hjne

/-- An INDIVIDUAL profile (id 0) for the sparse-update checks. -/
def c3pInd : Profile :=
  { id := 0, external_user_id := 21
    profile_type := ProfileType.INDIVIDUAL
    phone_number := some "111", country := some "FR", city := none
    address := none, created_at := 0, updated_at := 0 }

/-- A BUSINESS profile (id 1) for the sparse-update checks. -/
def c3pBus : Profile :=
  { id := 1, external_user_id := 22
    profile_type := ProfileType.BUSINESS
    phone_number := none, country := none, city := none, address := none
    created_at := 0, updated_at := 0 }

/-- The specialization row of profile 0. -/
def c3i : IndividualProfile :=
  { id := 0, first_name := some "F", last_name := some "G"
    date_of_birth := none, gender := none, national_id_number := none }

/-- The specialization row of profile 1. -/
def c3b : BusinessProfile :=
  { id := 1, business_name := "B", registration_number := none
    tax_id := none, legal_representative_name := none }

/-- A store with one individual and one business profile. -/
def c3db : DB :=
  { profiles := [c3pInd, c3pBus], individuals := [c3i]
    businesses := [c3b], documents := [], verifications := []
    nextId := 2, now := 0 }

/-- A sparse individual payload: only `phone_number` and `last_name` are
provided. -/
def c3u : ProfileRepository.IndividualUpdate :=
  { phone_number := some "222", country := none, city := none
    address := none, first_name := none, last_name := some "H"
    date_of_birth := none, gender := none, national_id_number := none }

/-- A sparse business payload: only `business_name` is provided. -/
def c3w : ProfileRepository.BusinessUpdate :=
  { phone_number := none, country := none, city := none, address := none
    business_name := some "B2", registration_number := none
    tax_id := none, legal_representative_name := none }

/-- Concrete instantiation of `C3_sparse_update`: an individual update
aimed at the business profile (and at an absent id) is rejected
unchanged; updates of the right kind touch exactly the provided fields
and leave the rest of the store alone. -/
theorem C3_sparse_update_witness :
    ProfileRepository.update_individual_profile c3db 1 c3u
      = (c3db, none) ∧
    ProfileRepository.update_business_profile c3db 9 c3w
      = (c3db, none) ∧
    (∃ p2, (ProfileRepository.update_individual_profile c3db 0
        c3u).1.profiles.find? (fun q => q.id == 0) = some p2 ∧
      p2.phone_number = updField c3u.phone_number c3pInd.phone_number ∧
      p2.country = updField c3u.country c3pInd.country ∧
      p2.city = updField c3u.city c3pInd.city ∧
      p2.address = updField c3u.address c3pInd.address ∧
      p2.id = c3pInd.id ∧
      p2.external_user_id = c3pInd.external_user_id ∧
      p2.profile_type = c3pInd.profile_type ∧
      p2.created_at = c3pInd.created_at ∧
      p2.updated_at = c3pInd.updated_at) ∧
    (∃ i2, (ProfileRepository.update_individual_profile c3db 0
        c3u).1.individuals.find? (fun j => j.id == 0) = some i2 ∧
      i2.first_name = updField c3u.first_name c3i.first_name ∧
      i2.last_name = updField c3u.last_name c3i.last_name ∧
      i2.date_of_birth = updField c3u.date_of_birth c3i.date_of_birth ∧
      i2.gender = updField c3u.gender c3i.gender ∧
      i2.national_id_number
        = updField c3u.national_id_number c3i.national_id_number ∧
      i2.id = c3i.id) ∧
    c3pBus ∈ (ProfileRepository.update_individual_profile c3db 0
      c3u).1.profiles ∧
    (ProfileRepository.update_individual_profile c3db 0 c3u).1.businesses
      = c3db.businesses ∧
    (∃ b2, (ProfileRepository.update_business_profile c3db 1
        c3w).1.businesses.find? (fun j => j.id == 1) = some b2 ∧
      b2.business_name = (c3w.business_name).getD c3b.business_name ∧
      b2.registration_number
        = updField c3w.registration_number c3b.registration_number ∧
      b2.tax_id = updField c3w.tax_id c3b.tax_id ∧
      b2.legal_representative_name
        = updField c3w.legal_representative_name
            c3b.legal_representative_name ∧
      b2.id = c3b.id) := by
  have h3 := (C3_sparse_update c3db 0 c3u c3w).2.2.1 c3pInd rfl rfl
  have h4 := (C3_sparse_update c3db 1 c3u c3w).2.2.2 c3pBus rfl rfl
  refine ⟨(C3_sparse_update c3db 1 c3u c3w).1 ?_,
    (C3_sparse_update c3db 9 c3u c3w).2.1 ?_,
    h3.1, h3.2.1 c3i rfl, h3.2.2.1 c3pBus (by decide) (by decide),
    h3.2.2.2.2.1, h4.2.1 c3b rfl⟩
  · intro p hp
    have he : some c3pBus = some p := hp
    injection he with he2
    rw [← he2]
    decide
  · intro p hp
    exact absurd (show (none : Option Profile) = some p from hp)
      (by simp)
